import Mathlib

/-!
Verification of the igus D1 motor-controller driver (igusd1.py).

The definitions below are a shallow embedding of the Python source.
Bytes are modelled as Nat, byte buffers as List Nat, Python int values as
Int, the TCP peer as an explicit script of replies, and the unbounded
polling loops as fuel-indexed recursion; fuel exhaustion returns none and
corresponds to a run in which the polling loop has not yet terminated.
-/

/-- Frame builder, from make_bytearray in igusd1.py.  The Python code
filters the sentinel value -1 out of temp_data (whose default argument is
[-1, -1, -1, -1], meaning no payload), concatenates the fixed header with
obj_ind, sub_ind, data_len and the retained payload, and finally
overwrites byte 5 with len(array) - 6.  The source performs no validation
of any kind. -/
def make_bytearray (read_write : Nat) (obj_ind : List Nat) (sub_ind : Nat)
    (data_len : Nat) (temp_data : List Int) : List Nat :=
  let data : List Nat := (temp_data.filter (fun i => i != -1)).map Int.toNat
  let array : List Nat :=
    [0, 0, 0, 0, 0, 0, 0, 43, 13, read_write, 0, 0] ++ obj_ind ++
      [sub_ind, 0, 0, 0, data_len] ++ data
  array.set 5 (array.length - 6)

/-- The default temp_data argument of make_bytearray in the source: four
sentinel entries, all filtered out, i.e. no payload bytes. -/
def noData : List Int := [-1, -1, -1, -1]

/-- get_array from igusd1.py: the four canned request templates.  For an
unrecognized selector the Python function falls through all branches and
fails (the local variable sel is unbound); that failure is modelled as
none. -/
def get_array (selector : String) : Option (List Nat) :=
  if selector = "status" then some (make_bytearray 0 [96, 65] 0 2 noData)
  else if selector = "shutdown" then some (make_bytearray 1 [96, 64] 0 2 [6, 0])
  else if selector = "switch_on" then some (make_bytearray 1 [96, 64] 0 2 [7, 0])
  else if selector = "enable_operation" then some (make_bytearray 1 [96, 64] 0 2 [15, 0])
  else none

/-- Driver-side view of get_array: every call site inside the driver
passes one of the four recognized selectors, for which get_array
succeeds, so the default never fires on a driver path. -/
def getArr (selector : String) : List Nat := (get_array selector).getD []

/-- Python int.to_bytes(4, little): the 4-byte little-endian encoding of
v.  The source never passes signed=True, so the call fails with
OverflowError when v is negative or does not fit in 4 unsigned bytes;
that failure is modelled as none. -/
def to_bytes_le4 (v : Int) : Option (List Nat) :=
  if 0 ≤ v ∧ v < 4294967296 then
    some [v.toNat % 256, v.toNat / 256 % 256, v.toNat / 65536 % 256,
      v.toNat / 16777216 % 256]
  else none

/-- Little-endian value of a byte list. -/
def le_nat (bs : List Nat) : Nat := bs.foldr (fun b acc => b + 256 * acc) 0

/-- Signed 32-bit reading of a 4-byte little-endian byte list, as done by
the struct.unpack format character i in the source. -/
def int32_of_le (bs : List Nat) : Int :=
  if le_nat bs < 2147483648 then (le_nat bs : Int)
  else (le_nat bs : Int) - 4294967296

/-- struct.unpack with the format of 19 pad bytes followed by one signed
little-endian 32-bit integer, as used on position and velocity replies:
it requires the buffer length to be exactly 23 (struct.error otherwise)
and decodes bytes 19..22. -/
def unpack_i32_at19 (bs : List Nat) : Option Int :=
  if bs.length = 23 then some (int32_of_le (bs.drop 19)) else none

/-- Test-harness model of the device side of the TCP connection used by
the driver methods, in the sense of the simulated-device scenarios of the
specification: pending is the script of replies the simulated device
returns (one per send_command exchange), sent is the log of frames the
driver has written, and sleeps counts the time.sleep calls made so far. -/
structure Dev where
  pending : List (List Nat)
  sent : List (List Nat)
  sleeps : Nat
deriving DecidableEq

/-- One request/response exchange of D1.send_command against the scripted
device: the frame is appended to the sent log and the next scripted reply
is consumed. -/
def sendCmd (frame : List Nat) (d : Dev) : List Nat × Dev :=
  (d.pending.headD [], Dev.mk d.pending.tail (d.sent ++ [frame]) d.sleeps)

/-- One time.sleep call. -/
def sleep1 (d : Dev) : Dev := Dev.mk d.pending d.sent (d.sleeps + 1)

/-- The three accepted status replies of set_shutdown (ba_1, ba_2 and
ba_3 in the source): status values 0x0621, 0x1621 and 0x0221 as
little-endian byte pairs 33 6, 33 22 and 33 2 echoed in a status frame.
Note that these comparison frames are built in READ mode with a payload. -/
def shutdown_ba1 : List Nat := make_bytearray 0 [96, 65] 0 2 [33, 6]

/-- Second accepted set_shutdown status reply, 0x1621. -/
def shutdown_ba2 : List Nat := make_bytearray 0 [96, 65] 0 2 [33, 22]

/-- Third accepted set_shutdown status reply, 0x0221. -/
def shutdown_ba3 : List Nat := make_bytearray 0 [96, 65] 0 2 [33, 2]

/-- The polling loop of set_shutdown.  The Python while condition is
A and B and C where each of A, B and C performs its own send_command
call; short-circuit evaluation therefore sends one, two or three status
queries per iteration, comparing the first reply against ba_1 only, the
second against ba_2 only and the third against ba_3 only.  Each failed
iteration sleeps once. -/
def shutdown_loop : Nat → Dev → Option Dev
  | 0, _ => none
  | fuel + 1, d =>
    let r1 := sendCmd (getArr "status") d
    if r1.1 = shutdown_ba1 then some r1.2
    else
      let r2 := sendCmd (getArr "status") r1.2
      if r2.1 = shutdown_ba2 then some r2.2
      else
        let r3 := sendCmd (getArr "status") r2.2
        if r3.1 = shutdown_ba3 then some r3.2
        else shutdown_loop fuel (sleep1 r3.2)

/-- set_shutdown from igusd1.py: send the canned shutdown control-word
write, then run the status polling loop. -/
def set_shutdown (fuel : Nat) (d : Dev) : Option Dev :=
  shutdown_loop fuel (sendCmd (getArr "shutdown") d).2

/-- The polling loop of set_mode: read the mode-of-operation display
object until the reply equals the echo frame of the requested mode,
sleeping after each failed poll. -/
def set_mode_loop (mode : Int) : Nat → Dev → Option Dev
  | 0, _ => none
  | fuel + 1, d =>
    let r := sendCmd (make_bytearray 0 [96, 97] 0 1 noData) d
    if r.1 = make_bytearray 0 [96, 97] 0 1 [mode] then some r.2
    else set_mode_loop mode fuel (sleep1 r.2)

/-- set_mode from igusd1.py: write the mode byte to the
mode-of-operation object, then poll the display object. -/
def set_mode (fuel : Nat) (mode : Int) (d : Dev) : Option Dev :=
  set_mode_loop mode fuel (sendCmd (make_bytearray 1 [96, 96] 0 1 [mode]) d).2

/-- set_feedrate from igusd1.py: write the low two bytes of the 4-byte
little-endian feedrate encoding to sub-index 1 of object 0x6092, then
write the 1-byte apply flag to sub-index 2. -/
def set_feedrate (feedrate : Int) (d : Dev) : Option Dev :=
  (to_bytes_le4 feedrate).map (fun fb =>
    let d1 := (sendCmd (make_bytearray 1 [96, 146] 1 2
      [(fb.getD 0 0 : Int), (fb.getD 1 0 : Int)]) d).2
    (sendCmd (make_bytearray 1 [96, 146] 2 1 [1]) d1).2)

/-- The homing method table of set_homing, a name-to-code dictionary. -/
def homing_methods : List (String × Int) :=
  [("LSN", 17), ("LSP", 18), ("IEN", 33), ("IEP", 34), ("SCP", 37), ("AAF", 255)]

/-- Result of set_homing: either normal completion or the KeyError raised
by the dictionary lookup on an unknown method name.  Both constructors
carry the device state so the frames sent up to that point stay
observable. -/
inductive HomingOutcome
  | ok (d : Dev)
  | unknownMethod (d : Dev)
deriving DecidableEq

/-- The status polling loop of set_homing: poll until the reply equals
the 0x1627 echo frame; each failed iteration performs one further status
query inside a print call, then sleeps. -/
def homing_loop : Nat → Dev → Option Dev
  | 0, _ => none
  | fuel + 1, d =>
    let r := sendCmd (getArr "status") d
    if r.1 = make_bytearray 0 [96, 65] 0 2 [39, 22] then some r.2
    else
      let rp := sendCmd (getArr "status") r.2
      homing_loop fuel (sleep1 rp.2)

/-- set_homing from igusd1.py.  Note the order of operations in the
source: set_mode(6) runs, and sends its frames, BEFORE the method name is
looked up in the table; an unknown name then raises KeyError (there is no
UnknownHomingMethodError class anywhere in the source), modelled as the
unknownMethod outcome. -/
def set_homing (fuel : Nat) (method : String)
    (find_velocity zero_velocity acceleration : Int) (d : Dev) :
    Option HomingOutcome :=
  match set_mode fuel 6 d with
  | none => none
  | some d1 =>
    match homing_methods.lookup method with
    | none => some (HomingOutcome.unknownMethod d1)
    | some code =>
      let d2 := (sendCmd (make_bytearray 1 [96, 152] 1 1 [code]) d1).2
      match set_feedrate 6000 d2 with
      | none => none
      | some d3 =>
        match to_bytes_le4 find_velocity, to_bytes_le4 zero_velocity,
            to_bytes_le4 acceleration with
        | some fv, some zv, some ac =>
          let d4 := (sendCmd (make_bytearray 1 [96, 153] 1 2
            [(fv.getD 0 0 : Int), (fv.getD 1 0 : Int)]) d3).2
          let d5 := (sendCmd (make_bytearray 1 [96, 153] 2 2
            [(zv.getD 0 0 : Int), (zv.getD 1 0 : Int)]) d4).2
          let d6 := (sendCmd (make_bytearray 1 [96, 154] 0 2
            [(ac.getD 0 0 : Int), (ac.getD 1 0 : Int)]) d5).2
          let d7 := (sendCmd (make_bytearray 1 [96, 64] 0 2 [31, 0]) d6).2
          let d8 := (sendCmd (make_bytearray 1 [96, 64] 0 2 [15, 0]) d7).2
          match homing_loop fuel d8 with
          | none => none
          | some d9 =>
            some (HomingOutcome.ok (sendCmd (getArr "enable_operation") d9).2)
        | _, _, _ => none

/-- Failure modes of a move run: OverflowError from int.to_bytes on an
out-of-range value, fuel exhaustion of a polling loop, or struct.error
from unpack on a reply whose length is not 23. -/
inductive MoveErr
  | overflow
  | noFuel
  | structError
deriving DecidableEq

/-- Observable outcome of a completed move call: the final device state,
the print calls it made (the start-command reply and the status list),
and the Python return value.  The source function has no return
statement, so its return value is None on every run. -/
structure MoveRes where
  dev : Dev
  printed : List (List Int)
  ret : Option (Int × Int)
deriving DecidableEq

/-- The status polling loop of move: poll until the reply equals the
0x0627 echo frame, sleeping 0.1 time units after each failed poll. -/
def move_loop : Nat → Dev → Option Dev
  | 0, _ => none
  | fuel + 1, d =>
    let r := sendCmd (getArr "status") d
    if r.1 = make_bytearray 0 [96, 65] 0 2 [39, 6] then some r.2
    else move_loop fuel (sleep1 r.2)

/-- move from igusd1.py: set_mode(1); write velocity, acceleration and
target position as 4-byte little-endian values; rising-edge trigger
(control word 0x001F then 0x000F); poll status until 0x0627; read back
actual position and actual velocity as signed 32-bit values, print the
pair; re-issue enable-operation.  The function body ends there: there is
no return statement, so ret is none. -/
def move (fuel : Nat) (velocity acceleration target_position : Int)
    (d : Dev) : Except MoveErr MoveRes :=
  match set_mode fuel 1 d with
  | none => Except.error MoveErr.noFuel
  | some d1 =>
    match to_bytes_le4 velocity with
    | none => Except.error MoveErr.overflow
    | some vb =>
      let d2 := (sendCmd (make_bytearray 1 [96, 129] 0 4
        [(vb.getD 0 0 : Int), (vb.getD 1 0 : Int),
          (vb.getD 2 0 : Int), (vb.getD 3 0 : Int)]) d1).2
      match to_bytes_le4 acceleration with
      | none => Except.error MoveErr.overflow
      | some ab =>
        let d3 := (sendCmd (make_bytearray 1 [96, 131] 0 4
          [(ab.getD 0 0 : Int), (ab.getD 1 0 : Int),
            (ab.getD 2 0 : Int), (ab.getD 3 0 : Int)]) d2).2
        match to_bytes_le4 target_position with
        | none => Except.error MoveErr.overflow
        | some tb =>
          let d4 := (sendCmd (make_bytearray 1 [96, 122] 0 4
            [(tb.getD 0 0 : Int), (tb.getD 1 0 : Int),
              (tb.getD 2 0 : Int), (tb.getD 3 0 : Int)]) d3).2
          let rs := sendCmd (make_bytearray 1 [96, 64] 0 2 [31, 0]) d4
          let printed1 : List (List Int) := [rs.1.map (fun b => (b : Int))]
          let d5 := (sendCmd (make_bytearray 1 [96, 64] 0 2 [15, 0]) rs.2).2
          match move_loop fuel d5 with
          | none => Except.error MoveErr.noFuel
          | some d6 =>
            let rp := sendCmd (make_bytearray 0 [96, 100] 0 4 noData) d6
            match unpack_i32_at19 rp.1 with
            | none => Except.error MoveErr.structError
            | some pos =>
              let rv := sendCmd (make_bytearray 0 [96, 108] 0 4 noData) rp.2
              match unpack_i32_at19 rv.1 with
              | none => Except.error MoveErr.structError
              | some vel =>
                let d7 := (sendCmd (getArr "enable_operation") rv.2).2
                Except.ok (MoveRes.mk d7 (printed1 ++ [[pos, vel]]) none)

/-- One event delivered by the raw TCP stream on a recv call: a chunk of
bytes (possibly short, possibly empty when the peer has closed), or an
error raised by the stream itself. -/
inductive RecvEv
  | chunk (bs : List Nat)
  | errEv
deriving DecidableEq

/-- Raw stream model for D1.send_command: the scripted recv events and
the log of frames written with sock.send. -/
structure Conn where
  events : List RecvEv
  sentLog : List (List Nat)
deriving DecidableEq

/-- The one failure send_command can propagate: an error raised by the
underlying stream. -/
inductive ConnFail
  | streamError
deriving DecidableEq

/-- send_command from igusd1.py over the raw stream model: sock.send of
the frame followed by a single sock.recv(24).  recv returns at most 24
bytes of whatever the stream delivers next; a short chunk is returned as
is, an exhausted or closed stream yields the empty byte string, and only
an error raised by the stream itself propagates.  The source contains no
length check on the reply. -/
def send_command_conn (frame : List Nat) (c : Conn) :
    Except ConnFail (List Nat) × Conn :=
  let log := c.sentLog ++ [frame]
  match c.events with
  | RecvEv.chunk bs :: rest => (Except.ok (bs.take 24), Conn.mk rest log)
  | RecvEv.errEv :: rest => (Except.error ConnFail.streamError, Conn.mk rest log)
  | [] => (Except.ok [], Conn.mk [] log)

/-- Socket state owned by a constructed driver: whether the connect call
on it succeeded. -/
structure D1Sock where
  connected : Bool
deriving DecidableEq

/-- Driver state after the constructor: sock is none when socket creation
failed (the attribute was never assigned), and an unconnected or
connected socket otherwise. -/
structure D1St where
  sock : Option D1Sock
deriving DecidableEq

/-- The constructor from igusd1.py.  Both the socket creation and the
connect call sit in try/except blocks whose handlers do nothing, so for
every host and port the constructor returns an object: socketOk says
whether the environment let the socket be created (if not, self.sock is
never assigned and the subsequent connect attempt fails too, silently),
and connectOk whether the connect call succeeded.  A failed connect
leaves an unconnected socket behind. -/
def d1_init (socketOk connectOk : Bool) : D1St :=
  match (if socketOk then some (D1Sock.mk false) else none) with
  | none => D1St.mk none
  | some _ => D1St.mk (some (D1Sock.mk connectOk))

/-- What a later send_command raises on a driver whose construction
swallowed a failure: AttributeError when self.sock was never assigned,
OSError when the socket was never connected, and a stream error only
when the exchange itself fails. -/
inductive SendFail
  | attributeError
  | osError
  | streamError
deriving DecidableEq

/-- D1.send_command as reached through a constructed driver: accessing
self.sock fails when socket creation had failed, sock.send fails when the
socket was never connected, and otherwise the exchange of
send_command_conn takes place. -/
def d1_send (st : D1St) (frame : List Nat) (c : Conn) :
    Except SendFail (List Nat) × Conn :=
  match st.sock with
  | none => (Except.error SendFail.attributeError, c)
  | some s =>
    if s.connected then
      match send_command_conn frame c with
      | (Except.ok bs, c1) => (Except.ok bs, c1)
      | (Except.error _, c1) => (Except.error SendFail.streamError, c1)
    else (Except.error SendFail.osError, c)

/-- Boolean success test on a send result. -/
def isOkE (e : Except SendFail (List Nat)) : Bool :=
  match e with
  | Except.ok _ => true
  | Except.error _ => false

/-! ## Scenario devices -/

/-- Simulated device for the set_shutdown scenario of the specification:
one reply for the shutdown write, then status replies 0x0620 followed by
0x0621 (and 0x0621 again for every further query the code makes). -/
def devC1 : Dev :=
  Dev.mk [[], make_bytearray 0 [96, 65] 0 2 [32, 6],
    shutdown_ba1, shutdown_ba1, shutdown_ba1] [] 0

/-- Simulated device for the move scenario of the specification: mode 1
is confirmed on the first display poll, the write replies are ignored,
target-reached 0x0627 arrives on the third status poll, then the device
returns actual position 200000 and actual velocity 0 as 23-byte replies
(19 header bytes plus 4 data bytes), and one reply for the final
enable-operation write. -/
def devC2 : Dev :=
  Dev.mk [[],
    make_bytearray 0 [96, 97] 0 1 [1],
    [], [], [],
    make_bytearray 1 [96, 64] 0 2 [31, 0],
    [],
    make_bytearray 0 [96, 65] 0 2 [33, 6],
    make_bytearray 0 [96, 65] 0 2 [33, 6],
    make_bytearray 0 [96, 65] 0 2 [39, 6],
    make_bytearray 0 [96, 100] 0 4 [64, 13, 3, 0],
    make_bytearray 0 [96, 108] 0 4 [0, 0, 0, 0],
    []] [] 0

/-- Simulated device for the set_homing scenarios: one reply for the mode
write and an immediate confirmation of mode 6 on the first display poll. -/
def devC3 : Dev := Dev.mk [[], make_bytearray 0 [96, 97] 0 1 [6]] [] 0

/-- Device state after set_mode 6 has run against devC3: the mode write
and one display query have been sent. -/
def devC3after : Dev :=
  Dev.mk [] [make_bytearray 1 [96, 96] 0 1 [6],
    make_bytearray 0 [96, 97] 0 1 noData] 0

/-! ## Claim C1 -/

/-- Claim C1: evaluation of set_shutdown on the exact scenario of the
claim (first status reply 0x0620, then 0x0621 from the second status
query on).  The code sends FOUR status queries and sleeps once, not the
two queries the claim states, because each conjunct of the Python while
condition performs its own send_command call: the second reply 0x0621 is
compared only against ba_2 = 0x1621 and is therefore missed, a third
query is issued and compared only against ba_3 = 0x0221, the iteration
fails, one sleep happens, and the fourth query finally matches ba_1. -/
theorem set_shutdown_four_queries_on_claim_scenario :
    set_shutdown 3 devC1 =
      some (Dev.mk []
        [getArr "shutdown", getArr "status", getArr "status",
          getArr "status", getArr "status"] 1) := by
  rfl

/-! ## Claim C2 -/

/-- Claim C2 counterexample: on the claimed scenario (target-reached
0x0627 after 3 polls, then actual position 200000 and actual velocity 0)
move completes normally but its Python return value is None, not the pair
(200000, 0): the source prints the pair and has no return statement, and
its own docstring states Returns None. -/
theorem move_returns_none_on_claim_scenario :
    (move 5 1000 500 200000 devC2).map MoveRes.ret = Except.ok none := by
  rfl

/-- Claim C2 amended: on the claimed scenario move reads back actual
position and actual velocity as 4-byte little-endian signed values from
objects 0x6064 and 0x606C and PRINTS the pair [200000, 0] (its final
print call), returning None; the sent log shows the whole choreography:
mode write and display poll, the three 4-byte little-endian writes of
velocity 1000, acceleration 500 and target 200000, the rising-edge
trigger, three status polls, the two read-backs and the final
enable-operation write. -/
theorem move_prints_pair_on_claim_scenario :
    (move 5 1000 500 200000 devC2).map
        (fun r => (r.printed, r.ret, r.dev.sent)) =
      Except.ok
        ([(make_bytearray 1 [96, 64] 0 2 [31, 0]).map (fun b => (b : Int)),
            [200000, 0]],
          none,
          [make_bytearray 1 [96, 96] 0 1 [1],
            make_bytearray 0 [96, 97] 0 1 noData,
            make_bytearray 1 [96, 129] 0 4 [232, 3, 0, 0],
            make_bytearray 1 [96, 131] 0 4 [244, 1, 0, 0],
            make_bytearray 1 [96, 122] 0 4 [64, 13, 3, 0],
            make_bytearray 1 [96, 64] 0 2 [31, 0],
            make_bytearray 1 [96, 64] 0 2 [15, 0],
            getArr "status", getArr "status", getArr "status",
            make_bytearray 0 [96, 100] 0 4 noData,
            make_bytearray 0 [96, 108] 0 4 noData,
            getArr "enable_operation"]) := by
  rfl

/-! ## Claim C3 -/

/-- Claim C3 counterexample: for the unknown method name XYZ, set_homing
does fail at the table lookup (a KeyError in the source; no
UnknownHomingMethodError class exists there), but only AFTER set_mode(6)
has already sent two frames (the mode write and one mode display query),
so the claim that no frame is sent is false. -/
theorem set_homing_unknown_method_sends_frames :
    set_homing 2 "XYZ" 100 50 200 devC3 =
      some (HomingOutcome.unknownMethod devC3after) ∧
    devC3after.sent.length = 2 := by
  exact ⟨rfl, rfl⟩

/-- Claim C3 amended: the name LSN resolves to code 17 through the fixed
table, and every method name outside the table makes set_homing fail with
the lookup error (KeyError) — but only after the set_mode(6) frames have
been sent, so in the devC3 scenario exactly two frames precede the
failure and no homing-specific frame follows it. -/
theorem set_homing_method_resolution :
    homing_methods.lookup "LSN" = some 17 ∧
    ∀ m : String, homing_methods.lookup m = none →
      set_homing 2 m 100 50 200 devC3 =
        some (HomingOutcome.unknownMethod devC3after) := by
  refine ⟨rfl, fun m hm => ?_⟩
  have h1 : set_mode 2 6 devC3 = some devC3after := rfl
  unfold set_homing
  rw [h1, hm]

/-- Claim C3 witness: instantiation of the amended statement at the
concrete unknown name QXQ. -/
theorem set_homing_method_resolution_witness :
    homing_methods.lookup "QXQ" = none ∧
    set_homing 2 "QXQ" 100 50 200 devC3 =
      some (HomingOutcome.unknownMethod devC3after) :=
  ⟨by decide, set_homing_method_resolution.2 "QXQ" (by decide)⟩

/-! ## Claim C4 -/

/-- Claim C4 counterexample: the builder does not fail on the inputs the
claim says it rejects.  With declared byte_count 2 but a 1-byte payload
it succeeds and returns a 20-byte frame, and with byte_count 5 (greater
than 4) and a 5-byte payload it succeeds and returns a 24-byte frame; no
InvalidFrameError (or any other validation) exists in the source. -/
theorem make_bytearray_no_validation :
    make_bytearray 1 [96, 64] 0 2 [6] =
      [0, 0, 0, 0, 0, 14, 0, 43, 13, 1, 0, 0, 96, 64, 0, 0, 0, 0, 2, 6] ∧
    make_bytearray 1 [96, 64] 0 5 [1, 2, 3, 4, 5] =
      [0, 0, 0, 0, 0, 18, 0, 43, 13, 1, 0, 0, 96, 64, 0, 0, 0, 0, 5,
        1, 2, 3, 4, 5] :=
  ⟨rfl, rfl⟩

/-- Claim C4 amended: the frame builder performs no validation at all and
has no side effects: for every mode, two-byte address, sub-index,
declared byte_count and payload it succeeds, producing a frame of length
19 plus the number of non-sentinel payload entries, with the declared
byte_count stored at offset 18 and the retained payload from offset 19,
independently of whether the payload length matches byte_count or
byte_count exceeds 4. -/
theorem make_bytearray_total (rw a b si dl : Nat) (td : List Int) :
    (make_bytearray rw [a, b] si dl td).length =
      19 + ((td.filter (fun i => i != -1)).map Int.toNat).length ∧
    (make_bytearray rw [a, b] si dl td).get? 18 = some dl ∧
    (make_bytearray rw [a, b] si dl td).drop 19 =
      (td.filter (fun i => i != -1)).map Int.toNat := by
  refine ⟨?_, rfl, rfl⟩
  simp [make_bytearray]
  omega

/-! ## Claim C5 -/

/-- Claim C5 counterexample: the source builds frames in READ mode that
carry payload bytes: the expected-reply comparison frame ba_1 of
set_shutdown is built with read_write = 0 and payload bytes 33 6, so a
frame built in read mode does not always carry zero payload bytes. -/
theorem read_mode_frame_with_payload :
    (make_bytearray 0 [96, 65] 0 2 [33, 6]).drop 19 = [33, 6] ∧
    (make_bytearray 0 [96, 65] 0 2 [33, 6]).drop 19 ≠ [] :=
  ⟨rfl, by decide⟩

/-- Claim C5 amended: the payload a built frame carries is exactly the
non-sentinel payload supplied to the builder, regardless of the
read/write mode and of the declared byte_count: frames built with the
default sentinel payload (all read REQUESTS sent by the driver) carry
zero payload bytes, and frames built with an explicit payload carry
exactly those bytes. -/
theorem frame_payload_is_supplied_data :
    (∀ rw a b si dl : Nat, (make_bytearray rw [a, b] si dl noData).drop 19 = []) ∧
    (∀ (rw a b si dl : Nat) (td : List Int),
      (make_bytearray rw [a, b] si dl td).drop 19 =
        (td.filter (fun i => i != -1)).map Int.toNat) :=
  ⟨fun _ _ _ _ _ => rfl, fun _ _ _ _ _ _ => rfl⟩

/-! ## Claim C6 -/

/-- Claim C6 counterexample: send_command does not detect short reads.
On a stream that delivers a 3-byte chunk it returns those 3 bytes as the
reply, and on a stream whose peer has closed (an empty read, the
canonical early close) it returns the empty reply; in neither case is a
ConnectionError raised, because the source performs a single recv(24)
with no length check. -/
theorem send_command_accepts_short_read :
    send_command_conn (getArr "status") (Conn.mk [RecvEv.chunk [1, 2, 3]] []) =
      (Except.ok [1, 2, 3], Conn.mk [] [getArr "status"]) ∧
    send_command_conn (getArr "status") (Conn.mk [RecvEv.chunk []] []) =
      (Except.ok [], Conn.mk [] [getArr "status"]) :=
  ⟨rfl, rfl⟩

/-- Claim C6 amended: send_command writes the frame to the connection and
performs a single read of AT MOST 24 bytes, returning whatever the
stream delivers — short and empty reads included — without validating
the reply length; only an error raised by the underlying stream itself
propagates. -/
theorem send_command_returns_stream_chunk (f bs : List Nat)
    (rest : List RecvEv) (log : List (List Nat)) :
    send_command_conn f (Conn.mk (RecvEv.chunk bs :: rest) log) =
      (Except.ok (bs.take 24), Conn.mk rest (log ++ [f])) ∧
    send_command_conn f (Conn.mk (RecvEv.errEv :: rest) log) =
      (Except.error ConnFail.streamError, Conn.mk rest (log ++ [f])) :=
  ⟨rfl, rfl⟩

/-! ## Claim C7 -/

/-- Claim C7 counterexample: encoding the negative target position -12345
fails: int.to_bytes(4, little) without signed=True raises OverflowError
on any negative value, so there is no signed round-trip and move rejects
negative target positions — here move fails with the overflow error
after the mode change and the velocity and acceleration writes. -/
theorem negative_target_encoding_fails :
    to_bytes_le4 (-12345) = none ∧
    move 2 1000 500 (-12345)
        (Dev.mk [[], make_bytearray 0 [96, 97] 0 1 [1]] [] 0) =
      Except.error MoveErr.overflow :=
  ⟨rfl, rfl⟩

/-- Claim C7 amended: the little-endian field round-trip holds exactly
for the values the encoder accepts that the signed decoder maps to
themselves, i.e. 0 ≤ v < 2^31: encoding such a v into its 4-byte
little-endian field and decoding it back with the signed 32-bit reader
yields v again (in particular velocity 50000 round-trips); negative
values are rejected by the encoder, so move does not accept a negative
target_position. -/
theorem le4_roundtrip_nonneg (v : Int) (h0 : 0 ≤ v) (h1 : v < 2147483648) :
    (to_bytes_le4 v).map int32_of_le = some v := by
  have h2 : v < 4294967296 := by omega
  have hios : to_bytes_le4 v = some [v.toNat % 256, v.toNat / 256 % 256,
      v.toNat / 65536 % 256, v.toNat / 16777216 % 256] := by
    unfold to_bytes_le4
    rw [if_pos ⟨h0, h2⟩]
  rw [hios]
  have hn : v.toNat < 2147483648 := by omega
  have hle : le_nat [v.toNat % 256, v.toNat / 256 % 256,
      v.toNat / 65536 % 256, v.toNat / 16777216 % 256] = v.toNat := by
    unfold le_nat
    simp only [List.foldr_cons, List.foldr_nil]
    omega
  show some (int32_of_le [v.toNat % 256, v.toNat / 256 % 256,
    v.toNat / 65536 % 256, v.toNat / 16777216 % 256]) = some v
  unfold int32_of_le
  rw [hle, if_pos hn, Int.toNat_of_nonneg h0]

/-- Claim C7 witness: the round-trip theorem instantiated at velocity
50000. -/
theorem le4_roundtrip_nonneg_witness :
    (0 ≤ (50000 : Int)) ∧ ((50000 : Int) < 2147483648) ∧
    (to_bytes_le4 50000).map int32_of_le = some 50000 :=
  ⟨by decide, by decide, le4_roundtrip_nonneg 50000 (by decide) (by decide)⟩

/-! ## Claim C8 -/

/-- Claim C8: the length invariant of the frame builder.  For every mode,
address list, sub-index, declared byte count and payload, byte 5 of the
produced frame equals the total frame length minus 6, because the source
overwrites array[5] with len(array) - 6 after assembly. -/
theorem frame_length_byte_invariant (rw : Nat) (oi : List Nat)
    (si dl : Nat) (td : List Int) :
    (make_bytearray rw oi si dl td).get? 5 =
      some ((make_bytearray rw oi si dl td).length - 6) := by
  have h : (make_bytearray rw oi si dl td).length =
      ([0, 0, 0, 0, 0, 0, 0, 43, 13, rw, 0, 0] ++ oi ++
        [si, 0, 0, 0, dl] ++
        (td.filter (fun i => i != -1)).map Int.toNat : List Nat).length := by
    simp [make_bytearray]
  rw [h]
  rfl

/-! ## Claim C9 -/

/-- Claim C9: each canned request template of get_array is byte-for-byte
the corresponding build of make_bytearray: shutdown, switch-on and
enable-operation are control-word (object 0x6040) writes with 2-byte
little-endian payloads 0x0006, 0x0007 and 0x000F, and status is a 2-byte
read of the status-word object 0x6041; the explicit byte lists spell the
frames out. -/
theorem canned_frames_match_builder :
    get_array "shutdown" = some (make_bytearray 1 [96, 64] 0 2 [6, 0]) ∧
    make_bytearray 1 [96, 64] 0 2 [6, 0] =
      [0, 0, 0, 0, 0, 15, 0, 43, 13, 1, 0, 0, 96, 64, 0, 0, 0, 0, 2, 6, 0] ∧
    get_array "switch_on" = some (make_bytearray 1 [96, 64] 0 2 [7, 0]) ∧
    make_bytearray 1 [96, 64] 0 2 [7, 0] =
      [0, 0, 0, 0, 0, 15, 0, 43, 13, 1, 0, 0, 96, 64, 0, 0, 0, 0, 2, 7, 0] ∧
    get_array "enable_operation" = some (make_bytearray 1 [96, 64] 0 2 [15, 0]) ∧
    make_bytearray 1 [96, 64] 0 2 [15, 0] =
      [0, 0, 0, 0, 0, 15, 0, 43, 13, 1, 0, 0, 96, 64, 0, 0, 0, 0, 2, 15, 0] ∧
    get_array "status" = some (make_bytearray 0 [96, 65] 0 2 noData) ∧
    make_bytearray 0 [96, 65] 0 2 noData =
      [0, 0, 0, 0, 0, 13, 0, 43, 13, 0, 0, 0, 96, 65, 0, 0, 0, 0, 2] :=
  ⟨rfl, rfl, rfl, rfl, rfl, rfl, rfl, rfl⟩

/-! ## Claim C10 -/

/-- Claim C10: the constructor never propagates a failure — both its
try/except blocks swallow everything, so for every outcome of socket
creation and connection it returns a driver object (d1_init is total by
construction) — and whenever either step failed, a later send_command on
the resulting driver fails on the missing or unconnected socket. -/
theorem d1_init_swallows_failures (so co : Bool) (f : List Nat) (c : Conn)
    (h : ¬(so = true ∧ co = true)) :
    isOkE (d1_send (d1_init so co) f c).1 = false := by
  cases so <;> cases co <;>
    simp [d1_init, d1_send, isOkE] at h ⊢

/-- Claim C10 witness: a driver whose connect call failed; send_command
on it fails. -/
theorem d1_init_swallows_failures_witness :
    (¬((true : Bool) = true ∧ (false : Bool) = true)) ∧
    isOkE (d1_send (d1_init true false) [] (Conn.mk [] [])).1 = false :=
  ⟨by decide, d1_init_swallows_failures true false [] (Conn.mk [] []) (by decide)⟩
